import Mathlib

/-!
Verification of the DealFlow investment-metrics engine
(`src/server/utils/calculator.js`, class `PropertyCalculator`).

The engine is closed-form arithmetic over JavaScript numbers.  We embed it
over `ℚ`: every JS arithmetic operation used by the calculator (add, sub,
mul, div, integer-exponent pow) is exact over the rationals, and the
claims under study are stated with tolerances far wider than double
rounding error, or are exact algebraic identities of the code.

Input modelling: the constructor reads each field of the request body with
`parseFloat(x) || default` (for `loanTerm`, `parseInt(x) || default`).  We
model the result of the parse as an `Option`: `none` stands for a field
that is absent, unparsable, or NaN (all of which make `parseFloat` yield
NaN, which is falsy); `some q` stands for a field that parsed to the
number `q`.  The `||` coalescing then replaces both `none` and an explicit
`some 0` by the default, since `0` is falsy in JS.

`toFixed(2)` followed by `parseFloat` (used for the three metrics) is
modelled by rounding to an integer number of hundredths; JS `toFixed`
rounds to the nearest representable and on ties picks the larger value,
which is `round` (half toward plus infinity) at the rational level.
-/

namespace DealFlow

/-- Models `parseFloat(v) || d`: NaN (absent/unparsable) and 0 are falsy. -/
def orDefault (v : Option ℚ) (d : ℚ) : ℚ :=
  match v with
  | none => d
  | some q => if q = 0 then d else q

/-- Models `parseInt(v) || d` for the loan term. -/
def orDefaultInt (v : Option ℤ) (d : ℤ) : ℤ :=
  match v with
  | none => d
  | some n => if n = 0 then d else n

/-- The request body fields consumed by the calculator, after the JS
number parse: `none` is absent/unparsable/NaN, `some q` parsed to `q`. -/
structure PropertyData where
  purchasePrice : Option ℚ
  downPaymentPercent : Option ℚ
  interestRate : Option ℚ
  loanTerm : Option ℤ
  monthlyRent : Option ℚ
  propertyTax : Option ℚ
  insurance : Option ℚ
  hoaFees : Option ℚ
  maintenancePercent : Option ℚ
  vacancyPercent : Option ℚ
  propertyManagementPercent : Option ℚ
deriving DecidableEq

/-- The state of a `PropertyCalculator` instance after its constructor ran. -/
structure PropertyCalculator where
  purchasePrice : ℚ
  downPaymentPercent : ℚ
  interestRate : ℚ
  loanTerm : ℤ
  monthlyRent : ℚ
  propertyTax : ℚ
  insurance : ℚ
  hoaFees : ℚ
  maintenancePercent : ℚ
  vacancyPercent : ℚ
  propertyManagementPercent : ℚ
deriving DecidableEq

/-- The constructor `new PropertyCalculator(propertyData)`:
each field is `parseFloat(propertyData.f) || default`
(`parseInt` for `loanTerm`). -/
def PropertyCalculator.ofData (p : PropertyData) : PropertyCalculator where
  purchasePrice := orDefault p.purchasePrice 0
  downPaymentPercent := orDefault p.downPaymentPercent 20
  interestRate := orDefault p.interestRate 7
  loanTerm := orDefaultInt p.loanTerm 30
  monthlyRent := orDefault p.monthlyRent 0
  propertyTax := orDefault p.propertyTax 0
  insurance := orDefault p.insurance 0
  hoaFees := orDefault p.hoaFees 0
  maintenancePercent := orDefault p.maintenancePercent 1
  vacancyPercent := orDefault p.vacancyPercent 5
  propertyManagementPercent := orDefault p.propertyManagementPercent 10

namespace PropertyCalculator

/-- `getDownPayment()`: `(purchasePrice * downPaymentPercent) / 100`. -/
def getDownPayment (c : PropertyCalculator) : ℚ :=
  c.purchasePrice * c.downPaymentPercent / 100

/-- `getLoanAmount()`: `purchasePrice - getDownPayment()`. -/
def getLoanAmount (c : PropertyCalculator) : ℚ :=
  c.purchasePrice - c.getDownPayment

/-- `getMonthlyMortgage()`: straight-line when the monthly rate is 0,
otherwise the standard amortization formula. -/
def getMonthlyMortgage (c : PropertyCalculator) : ℚ :=
  let loanAmount := c.getLoanAmount
  let monthlyRate := c.interestRate / 100 / 12
  let numPayments := c.loanTerm * 12
  if monthlyRate = 0 then loanAmount / (numPayments : ℚ)
  else
    loanAmount * (monthlyRate * (1 + monthlyRate) ^ numPayments) /
      ((1 + monthlyRate) ^ numPayments - 1)

/-- The record returned by `getMonthlyExpenses()`. -/
structure MonthlyExpenses where
  mortgage : ℚ
  propertyTax : ℚ
  insurance : ℚ
  hoa : ℚ
  maintenance : ℚ
  vacancy : ℚ
  management : ℚ
  total : ℚ
deriving DecidableEq

/-- `getMonthlyExpenses()`. -/
def getMonthlyExpenses (c : PropertyCalculator) : MonthlyExpenses :=
  let monthlyMortgage := c.getMonthlyMortgage
  let monthlyPropertyTax := c.propertyTax / 12
  let monthlyInsurance := c.insurance / 12
  let monthlyHOA := c.hoaFees
  let monthlyMaintenance := c.monthlyRent * c.maintenancePercent / 100
  let monthlyVacancy := c.monthlyRent * c.vacancyPercent / 100
  let monthlyManagement := c.monthlyRent * c.propertyManagementPercent / 100
  { mortgage := monthlyMortgage
    propertyTax := monthlyPropertyTax
    insurance := monthlyInsurance
    hoa := monthlyHOA
    maintenance := monthlyMaintenance
    vacancy := monthlyVacancy
    management := monthlyManagement
    total :=
      monthlyMortgage + monthlyPropertyTax + monthlyInsurance + monthlyHOA +
        monthlyMaintenance + monthlyVacancy + monthlyManagement }

/-- `getMonthlyCashFlow()`: `monthlyRent - expenses.total`. -/
def getMonthlyCashFlow (c : PropertyCalculator) : ℚ :=
  c.monthlyRent - c.getMonthlyExpenses.total

/-- `getAnnualCashFlow()`: `getMonthlyCashFlow() * 12`. -/
def getAnnualCashFlow (c : PropertyCalculator) : ℚ :=
  c.getMonthlyCashFlow * 12

/-- `getNOI()`: annual rent minus annual operating expenses (no debt service). -/
def getNOI (c : PropertyCalculator) : ℚ :=
  let annualRent := c.monthlyRent * 12
  let annualExpenses :=
    c.propertyTax + c.insurance + c.hoaFees * 12 +
      annualRent * c.maintenancePercent / 100 +
      annualRent * c.vacancyPercent / 100 +
      annualRent * c.propertyManagementPercent / 100
  annualRent - annualExpenses

/-- Models `x.toFixed(2)` followed by `parseFloat`: round to hundredths. -/
def toFixed2 (x : ℚ) : ℚ :=
  (round (x * 100) : ℤ) / 100

/-- `getCapRate()`: `((noi / purchasePrice) * 100).toFixed(2)` (read back
as a number by `getFullAnalysis`). -/
def getCapRate (c : PropertyCalculator) : ℚ :=
  toFixed2 (c.getNOI / c.purchasePrice * 100)

/-- `getCashOnCashReturn()`: `((annualCashFlow / downPayment) * 100).toFixed(2)`. -/
def getCashOnCashReturn (c : PropertyCalculator) : ℚ :=
  toFixed2 (c.getAnnualCashFlow / c.getDownPayment * 100)

/-- `getROI()`: same expression as `getCashOnCashReturn()`. -/
def getROI (c : PropertyCalculator) : ℚ :=
  toFixed2 (c.getAnnualCashFlow / c.getDownPayment * 100)

/-- The record returned by `getRecommendation`. -/
structure Recommendation where
  verdict : String
  reason : String
  color : String
deriving DecidableEq

/-- `getRecommendation(monthlyCashFlow, roi)`: the four-way if chain. -/
def getRecommendation (monthlyCashFlow roi : ℚ) : Recommendation :=
  if monthlyCashFlow < 0 then
    { verdict := "AVOID"
      reason := "Negative cash flow - This property will cost you money every month."
      color := "red" }
  else if monthlyCashFlow < 100 ∨ roi < 5 then
    { verdict := "MARGINAL"
      reason := "Low returns - Consider negotiating a better price or finding higher rent."
      color := "yellow" }
  else if 10 ≤ roi ∧ 200 ≤ monthlyCashFlow then
    { verdict := "EXCELLENT"
      reason := "Strong deal! This meets the 1% rule and provides solid cash flow."
      color := "green" }
  else
    { verdict := "GOOD"
      reason := "Decent investment with positive cash flow."
      color := "blue" }

/-- `purchaseInfo` block of the report. -/
structure PurchaseInfo where
  purchasePrice : ℚ
  downPayment : ℚ
  downPaymentPercent : ℚ
  loanAmount : ℚ
  interestRate : ℚ
  loanTerm : ℤ
deriving DecidableEq

/-- `monthlyNumbers` block of the report. -/
structure MonthlyNumbers where
  rent : ℚ
  mortgage : ℚ
  propertyTax : ℚ
  insurance : ℚ
  hoa : ℚ
  maintenance : ℚ
  vacancy : ℚ
  management : ℚ
  totalExpenses : ℚ
  cashFlow : ℚ
deriving DecidableEq

/-- `annualNumbers` block of the report. -/
structure AnnualNumbers where
  rent : ℚ
  cashFlow : ℚ
  noi : ℚ
deriving DecidableEq

/-- `metrics` block of the report (each value already rounded to 2 decimals). -/
structure Metrics where
  capRate : ℚ
  cashOnCashReturn : ℚ
  roi : ℚ
deriving DecidableEq

/-- The full `FinancialReport` returned by `getFullAnalysis()`. -/
structure FinancialReport where
  purchaseInfo : PurchaseInfo
  monthlyNumbers : MonthlyNumbers
  annualNumbers : AnnualNumbers
  metrics : Metrics
  recommendation : Recommendation
deriving DecidableEq

/-- `getFullAnalysis()`. -/
def getFullAnalysis (c : PropertyCalculator) : FinancialReport :=
  let expenses := c.getMonthlyExpenses
  let monthlyCashFlow := c.getMonthlyCashFlow
  let annualCashFlow := c.getAnnualCashFlow
  { purchaseInfo :=
      { purchasePrice := c.purchasePrice
        downPayment := c.getDownPayment
        downPaymentPercent := c.downPaymentPercent
        loanAmount := c.getLoanAmount
        interestRate := c.interestRate
        loanTerm := c.loanTerm }
    monthlyNumbers :=
      { rent := c.monthlyRent
        mortgage := expenses.mortgage
        propertyTax := expenses.propertyTax
        insurance := expenses.insurance
        hoa := expenses.hoa
        maintenance := expenses.maintenance
        vacancy := expenses.vacancy
        management := expenses.management
        totalExpenses := expenses.total
        cashFlow := monthlyCashFlow }
    annualNumbers :=
      { rent := c.monthlyRent * 12
        cashFlow := annualCashFlow
        noi := c.getNOI }
    metrics :=
      { capRate := c.getCapRate
        cashOnCashReturn := c.getCashOnCashReturn
        roi := c.getROI }
    recommendation := getRecommendation monthlyCashFlow c.getROI }

end PropertyCalculator

end DealFlow

namespace DealFlow

open PropertyCalculator

/-- Coalescing with a nonzero default never yields 0: the parsed value is
either replaced by the nonzero default or is itself nonzero. -/
theorem orDefault_ne_zero (v : Option ℚ) (d : ℚ) (hd : d ≠ 0) :
    orDefault v d ≠ 0 := by
  cases v with
  | none => exact hd
  | some q => by_cases hq : q = 0 <;> simp [orDefault, hq, hd]

/-- Integer version of `orDefault_ne_zero`, for the loan term. -/
theorem orDefaultInt_ne_zero (v : Option ℤ) (d : ℤ) (hd : d ≠ 0) :
    orDefaultInt v d ≠ 0 := by
  cases v with
  | none => exact hd
  | some n => by_cases hn : n = 0 <;> simp [orDefaultInt, hn, hd]

/-- The reference property of the repository test suite (`testProperty`
in `src/server/tests/analyzer.test.js`, financial fields only). -/
def refProperty : PropertyData :=
  { purchasePrice := some 300000
    downPaymentPercent := some 20
    interestRate := some 7
    loanTerm := some 30
    monthlyRent := some 2000
    propertyTax := some 3000
    insurance := some 1200
    hoaFees := some 0
    maintenancePercent := some 1
    vacancyPercent := some 5
    propertyManagementPercent := some 10 }

/-- The calculator the constructor builds from `refProperty`. -/
def refCalculator : PropertyCalculator :=
  PropertyCalculator.ofData refProperty

/-- The request sent by the repository test `Edge Case: Zero down payment`:
purchasePrice 300000, monthlyRent 2000, downPaymentPercent 0, everything
else absent. -/
def zeroDownProperty : PropertyData :=
  { purchasePrice := some 300000
    downPaymentPercent := some 0
    interestRate := none
    loanTerm := none
    monthlyRent := some 2000
    propertyTax := none
    insurance := none
    hoaFees := none
    maintenancePercent := none
    vacancyPercent := none
    propertyManagementPercent := none }

/-- A zero-interest-rate request: purchasePrice 1200, interestRate 0,
loanTerm 1, everything else absent (so downPaymentPercent defaults to 20
and the loan amount is 960). -/
def zeroRateProperty : PropertyData :=
  { purchasePrice := some 1200
    downPaymentPercent := none
    interestRate := some 0
    loanTerm := some 1
    monthlyRent := none
    propertyTax := none
    insurance := none
    hoaFees := none
    maintenancePercent := none
    vacancyPercent := none
    propertyManagementPercent := none }

/-- A request whose rent-proportional percentages sum above 100:
vacancyPercent 120 plus defaults maintenancePercent 1 and
propertyManagementPercent 10, with monthlyRent 1000, loanTerm 1, and no
purchase price (so the mortgage is 0). -/
def decreasingRentProperty : PropertyData :=
  { purchasePrice := none
    downPaymentPercent := none
    interestRate := none
    loanTerm := some 1
    monthlyRent := some 1000
    propertyTax := none
    insurance := none
    hoaFees := none
    maintenancePercent := none
    vacancyPercent := some 120
    propertyManagementPercent := none }

/-- Claim C1: the spec and the repository test `Edge Case: Zero down
payment` say that with `downPaymentPercent = 0` the report has
`downPayment` within 1e-2 of 0 and `loanAmount` within 1e-2 of the
purchase price.  The code does the opposite: the constructor coalesces
the falsy 0 to the default 20, so for the test request the report
carries `downPayment = 60000` and `loanAmount = 240000`, violating both
assertions of the test. -/
theorem C1_zero_down_payment_coalesced :
    ((PropertyCalculator.ofData zeroDownProperty).getFullAnalysis).purchaseInfo.downPayment
        = 60000 ∧
    ((PropertyCalculator.ofData zeroDownProperty).getFullAnalysis).purchaseInfo.loanAmount
        = 240000 ∧
    ¬ |((PropertyCalculator.ofData zeroDownProperty).getFullAnalysis).purchaseInfo.downPayment
        - 0| ≤ 1 / 100 ∧
    ¬ |((PropertyCalculator.ofData zeroDownProperty).getFullAnalysis).purchaseInfo.loanAmount
        - 300000| ≤ 1 / 100 := by
  refine ⟨?_, ?_, ?_, ?_⟩ <;>
    norm_num [getFullAnalysis, getDownPayment, getLoanAmount, PropertyCalculator.ofData,
      orDefault, zeroDownProperty]

/-- Claim C2: the spec says an input `interestRate = 0` produces
straight-line amortization `loanAmount / (loanTerm * 12)`, and
`getMonthlyMortgage` indeed has a dedicated `monthlyRate === 0` branch
for it.  The constructor defeats that branch: it coalesces the falsy 0
to the default 7, so no input ever reaches it, and for the concrete
request `zeroRateProperty` the payment is the 7% amortized value
(about 83.07), not 960 / 12 = 80. -/
theorem C2_zero_interest_rate_coalesced :
    (PropertyCalculator.ofData zeroRateProperty).interestRate = 7 ∧
    (PropertyCalculator.ofData zeroRateProperty).getMonthlyMortgage ≠
      (PropertyCalculator.ofData zeroRateProperty).getLoanAmount /
        (((PropertyCalculator.ofData zeroRateProperty).loanTerm * 12 : ℤ) : ℚ) ∧
    ∀ d : PropertyData, (PropertyCalculator.ofData d).interestRate ≠ 0 := by
  refine ⟨?_, ?_, fun d => orDefault_ne_zero _ _ (by norm_num)⟩ <;>
    norm_num [getMonthlyMortgage, getLoanAmount, getDownPayment, PropertyCalculator.ofData,
      orDefault, orDefaultInt, zeroRateProperty]

/-- Claim C3: the constructor coalesces every falsy coerced field (absent,
unparsable, NaN, or explicitly 0) to its default — purchasePrice 0,
downPaymentPercent 20, interestRate 7, loanTerm 30, monthlyRent 0,
propertyTax 0, insurance 0, hoaFees 0, maintenancePercent 1,
vacancyPercent 5, propertyManagementPercent 10 — and consequently the six
fields with nonzero defaults are never 0 after construction, with an
explicitly supplied 0 silently replaced. -/
theorem C3_constructor_defaulting (d : PropertyData) :
    (PropertyCalculator.ofData { d with purchasePrice := none }).purchasePrice = 0 ∧
    (PropertyCalculator.ofData { d with purchasePrice := some 0 }).purchasePrice = 0 ∧
    (PropertyCalculator.ofData { d with downPaymentPercent := none }).downPaymentPercent = 20 ∧
    (PropertyCalculator.ofData { d with downPaymentPercent := some 0 }).downPaymentPercent = 20 ∧
    (PropertyCalculator.ofData { d with interestRate := none }).interestRate = 7 ∧
    (PropertyCalculator.ofData { d with interestRate := some 0 }).interestRate = 7 ∧
    (PropertyCalculator.ofData { d with loanTerm := none }).loanTerm = 30 ∧
    (PropertyCalculator.ofData { d with loanTerm := some 0 }).loanTerm = 30 ∧
    (PropertyCalculator.ofData { d with monthlyRent := none }).monthlyRent = 0 ∧
    (PropertyCalculator.ofData { d with monthlyRent := some 0 }).monthlyRent = 0 ∧
    (PropertyCalculator.ofData { d with propertyTax := none }).propertyTax = 0 ∧
    (PropertyCalculator.ofData { d with propertyTax := some 0 }).propertyTax = 0 ∧
    (PropertyCalculator.ofData { d with insurance := none }).insurance = 0 ∧
    (PropertyCalculator.ofData { d with insurance := some 0 }).insurance = 0 ∧
    (PropertyCalculator.ofData { d with hoaFees := none }).hoaFees = 0 ∧
    (PropertyCalculator.ofData { d with hoaFees := some 0 }).hoaFees = 0 ∧
    (PropertyCalculator.ofData { d with maintenancePercent := none }).maintenancePercent = 1 ∧
    (PropertyCalculator.ofData { d with maintenancePercent := some 0 }).maintenancePercent = 1 ∧
    (PropertyCalculator.ofData { d with vacancyPercent := none }).vacancyPercent = 5 ∧
    (PropertyCalculator.ofData { d with vacancyPercent := some 0 }).vacancyPercent = 5 ∧
    (PropertyCalculator.ofData
        { d with propertyManagementPercent := none }).propertyManagementPercent = 10 ∧
    (PropertyCalculator.ofData
        { d with propertyManagementPercent := some 0 }).propertyManagementPercent = 10 ∧
    (PropertyCalculator.ofData d).downPaymentPercent ≠ 0 ∧
    (PropertyCalculator.ofData d).interestRate ≠ 0 ∧
    (PropertyCalculator.ofData d).loanTerm ≠ 0 ∧
    (PropertyCalculator.ofData d).maintenancePercent ≠ 0 ∧
    (PropertyCalculator.ofData d).vacancyPercent ≠ 0 ∧
    (PropertyCalculator.ofData d).propertyManagementPercent ≠ 0 := by
  refine ⟨?_, ?_, ?_, ?_, ?_, ?_, ?_, ?_, ?_, ?_, ?_, ?_, ?_, ?_, ?_, ?_, ?_, ?_, ?_, ?_,
    ?_, ?_, ?_, ?_, ?_, ?_, ?_, ?_⟩ <;>
    first
    | exact orDefault_ne_zero _ _ (by norm_num)
    | exact orDefaultInt_ne_zero _ _ (by norm_num)
    | simp [PropertyCalculator.ofData, orDefault, orDefaultInt]

/-- Claim C4: the recommendation is a first-match precedence chain over
(monthlyCashFlow, roi): negative cash flow gives AVOID (red); otherwise
cash flow below 100 or roi below 5 gives MARGINAL (yellow); otherwise
roi at least 10 and cash flow at least 200 gives EXCELLENT (green);
otherwise GOOD (blue).  In particular every report whose monthly cash
flow is negative carries verdict AVOID whatever the roi is. -/
theorem C4_recommendation_precedence :
    (∀ cf roi : ℚ,
      (cf < 0 →
        getRecommendation cf roi =
          { verdict := "AVOID"
            reason := "Negative cash flow - This property will cost you money every month."
            color := "red" }) ∧
      (¬ cf < 0 → (cf < 100 ∨ roi < 5) →
        getRecommendation cf roi =
          { verdict := "MARGINAL"
            reason := "Low returns - Consider negotiating a better price or finding higher rent."
            color := "yellow" }) ∧
      (¬ cf < 0 → ¬ (cf < 100 ∨ roi < 5) → 10 ≤ roi ∧ 200 ≤ cf →
        getRecommendation cf roi =
          { verdict := "EXCELLENT"
            reason := "Strong deal! This meets the 1% rule and provides solid cash flow."
            color := "green" }) ∧
      (¬ cf < 0 → ¬ (cf < 100 ∨ roi < 5) → ¬ (10 ≤ roi ∧ 200 ≤ cf) →
        getRecommendation cf roi =
          { verdict := "GOOD"
            reason := "Decent investment with positive cash flow."
            color := "blue" })) ∧
    (∀ d : PropertyData,
      (PropertyCalculator.ofData d).getMonthlyCashFlow < 0 →
        ((PropertyCalculator.ofData d).getFullAnalysis).recommendation.verdict = "AVOID") := by
  constructor
  · intro cf roi
    refine ⟨fun h1 => by simp [getRecommendation, h1],
      fun h1 h2 => by simp [getRecommendation, h1, h2],
      fun h1 h2 h3 => by simp [getRecommendation, h1, h2, h3],
      fun h1 h2 h3 => by simp [getRecommendation, h1, h2, h3]⟩
  · intro d h
    simp [getFullAnalysis, getRecommendation, h]

/-- Claim C4, witness: the AVOID branch at cash flow -1 and roi 50, and
the report-level AVOID verdict at the concrete negative-cash-flow request
`decreasingRentProperty`. -/
theorem C4_recommendation_precedence_witness :
    getRecommendation (-1) 50 =
      { verdict := "AVOID"
        reason := "Negative cash flow - This property will cost you money every month."
        color := "red" } ∧
    ((PropertyCalculator.ofData decreasingRentProperty).getFullAnalysis).recommendation.verdict
      = "AVOID" :=
  ⟨(C4_recommendation_precedence.1 (-1) 50).1 (by norm_num),
    C4_recommendation_precedence.2 decreasingRentProperty (by
      norm_num [getMonthlyCashFlow, getMonthlyExpenses, getMonthlyMortgage, getLoanAmount,
        getDownPayment, PropertyCalculator.ofData, orDefault, orDefaultInt,
        decreasingRentProperty])⟩

/-- Claim C5: `getROI` and `getCashOnCashReturn` are the same computation
(`annualCashFlow / downPayment * 100`, rounded to 2 decimals), so the
report always has `metrics.roi = metrics.cashOnCashReturn`. -/
theorem C5_roi_equals_cash_on_cash (c : PropertyCalculator) :
    c.getROI = c.getCashOnCashReturn ∧
    (c.getFullAnalysis).metrics.roi = (c.getFullAnalysis).metrics.cashOnCashReturn :=
  ⟨rfl, rfl⟩

/-- Claim C6: `monthlyNumbers.totalExpenses` is the sum of its seven named
components (mortgage, propertyTax, insurance, hoa, maintenance, vacancy,
management) with no hidden terms; over the exact rational embedding the
identity is exact, hence within the 1e-6 tolerance the spec allows for
floating point. -/
theorem C6_total_expenses_is_sum (c : PropertyCalculator)
    (_hl : 0 < c.loanTerm) (_hp : 0 < c.purchasePrice) :
    ((c.getFullAnalysis).monthlyNumbers.totalExpenses =
      (c.getFullAnalysis).monthlyNumbers.mortgage +
        (c.getFullAnalysis).monthlyNumbers.propertyTax +
        (c.getFullAnalysis).monthlyNumbers.insurance +
        (c.getFullAnalysis).monthlyNumbers.hoa +
        (c.getFullAnalysis).monthlyNumbers.maintenance +
        (c.getFullAnalysis).monthlyNumbers.vacancy +
        (c.getFullAnalysis).monthlyNumbers.management) ∧
    |(c.getFullAnalysis).monthlyNumbers.totalExpenses -
        ((c.getFullAnalysis).monthlyNumbers.mortgage +
          (c.getFullAnalysis).monthlyNumbers.propertyTax +
          (c.getFullAnalysis).monthlyNumbers.insurance +
          (c.getFullAnalysis).monthlyNumbers.hoa +
          (c.getFullAnalysis).monthlyNumbers.maintenance +
          (c.getFullAnalysis).monthlyNumbers.vacancy +
          (c.getFullAnalysis).monthlyNumbers.management)| ≤ 1 / 1000000 := by
  have h : (c.getFullAnalysis).monthlyNumbers.totalExpenses =
      (c.getFullAnalysis).monthlyNumbers.mortgage +
        (c.getFullAnalysis).monthlyNumbers.propertyTax +
        (c.getFullAnalysis).monthlyNumbers.insurance +
        (c.getFullAnalysis).monthlyNumbers.hoa +
        (c.getFullAnalysis).monthlyNumbers.maintenance +
        (c.getFullAnalysis).monthlyNumbers.vacancy +
        (c.getFullAnalysis).monthlyNumbers.management := rfl
  refine ⟨h, ?_⟩
  rw [h, sub_self, abs_zero]
  norm_num

/-- Claim C6, witness: the expense-sum identity instantiated at the
reference property of the test suite (loanTerm 30 and purchasePrice
300000 discharge the positivity hypotheses). -/
theorem C6_total_expenses_is_sum_witness :
    (refCalculator.getFullAnalysis).monthlyNumbers.totalExpenses =
      (refCalculator.getFullAnalysis).monthlyNumbers.mortgage +
        (refCalculator.getFullAnalysis).monthlyNumbers.propertyTax +
        (refCalculator.getFullAnalysis).monthlyNumbers.insurance +
        (refCalculator.getFullAnalysis).monthlyNumbers.hoa +
        (refCalculator.getFullAnalysis).monthlyNumbers.maintenance +
        (refCalculator.getFullAnalysis).monthlyNumbers.vacancy +
        (refCalculator.getFullAnalysis).monthlyNumbers.management :=
  (C6_total_expenses_is_sum refCalculator
    (by norm_num [refCalculator, PropertyCalculator.ofData, orDefaultInt, refProperty])
    (by norm_num [refCalculator, PropertyCalculator.ofData, orDefault, refProperty])).1

/-- Claim C7: `annualNumbers.cashFlow` is exactly
`monthlyNumbers.cashFlow * 12` — `getAnnualCashFlow` is defined as
`getMonthlyCashFlow() * 12` and the report copies both. -/
theorem C7_annual_cash_flow_times_twelve (c : PropertyCalculator) :
    (c.getFullAnalysis).annualNumbers.cashFlow =
      (c.getFullAnalysis).monthlyNumbers.cashFlow * 12 := rfl

/-- Claim C8: at the reference property (purchasePrice 300000, rent 2000,
propertyTax 3000, insurance 1200, hoaFees 0, maintenance 1%, vacancy 5%,
management 10%) the annual NOI is 24000 - 8040 = 15960 and the cap rate
rounds to exactly 5.32. -/
theorem C8_reference_property_noi_cap_rate :
    ((PropertyCalculator.ofData refProperty).getFullAnalysis).annualNumbers.noi = 15960 ∧
    ((PropertyCalculator.ofData refProperty).getFullAnalysis).metrics.capRate = 532 / 100 := by
  constructor <;>
  · simp only [getFullAnalysis, getNOI, getCapRate, toFixed2, PropertyCalculator.ofData,
      orDefault, orDefaultInt, refProperty, round_eq]
    norm_num

/-- Claim C9, counterexample: two requests identical except for
monthlyRent (1000 versus 2000) whose rent-proportional percentages sum
to 131 > 100: the higher rent yields the strictly smaller monthly cash
flow (-620 versus -310), so rent does not always strictly increase cash
flow. -/
theorem C9_rent_monotonicity_counterexample :
    decreasingRentProperty.monthlyRent = some 1000 ∧
    (1000 : ℚ) < 2000 ∧
    (PropertyCalculator.ofData
        { decreasingRentProperty with monthlyRent := some 2000 }).getMonthlyCashFlow <
      (PropertyCalculator.ofData decreasingRentProperty).getMonthlyCashFlow := by
  refine ⟨rfl, by norm_num, ?_⟩
  norm_num [getMonthlyCashFlow, getMonthlyExpenses, getMonthlyMortgage, getLoanAmount,
    getDownPayment, PropertyCalculator.ofData, orDefault, orDefaultInt,
    decreasingRentProperty]

/-- Claim C9, amended: holding every other constructed field fixed,
strictly increasing monthlyRent strictly increases the monthly cash flow
provided maintenancePercent + vacancyPercent + propertyManagementPercent
is below 100 (as with the defaults 1 + 5 + 10); when those percentages
sum to 100 or more the direction is flat or reversed. -/
theorem C9_rent_monotonicity_amended (c : PropertyCalculator) (r r' : ℚ)
    (hrr : r < r')
    (hpct : c.maintenancePercent + c.vacancyPercent + c.propertyManagementPercent < 100) :
    ({ c with monthlyRent := r } : PropertyCalculator).getMonthlyCashFlow <
      ({ c with monthlyRent := r' } : PropertyCalculator).getMonthlyCashFlow := by
  have hm : ∀ q : ℚ,
      ({ c with monthlyRent := q } : PropertyCalculator).getMonthlyMortgage =
        c.getMonthlyMortgage := fun q => rfl
  simp only [getMonthlyCashFlow, getMonthlyExpenses, hm]
  nlinarith [mul_pos (sub_pos.mpr hrr) (sub_pos.mpr hpct)]

/-- Claim C9, witness: the amended monotonicity at the reference
calculator (percentages 1 + 5 + 10 = 16 < 100) for rents 1000 < 2000. -/
theorem C9_rent_monotonicity_amended_witness :
    ({ refCalculator with monthlyRent := (1000 : ℚ) }
        : PropertyCalculator).getMonthlyCashFlow <
      ({ refCalculator with monthlyRent := (2000 : ℚ) }
        : PropertyCalculator).getMonthlyCashFlow :=
  C9_rent_monotonicity_amended refCalculator 1000 2000 (by norm_num)
    (by norm_num [refCalculator, PropertyCalculator.ofData, orDefault, refProperty])

/-- Claim C10: the engine is deterministic — the report is a pure
function of the parsed request, so two invocations on equal inputs
produce equal FinancialReport values (the embedding has no randomness,
clock, or mutable state to read). -/
theorem C10_engine_deterministic (d d' : PropertyData) (h : d = d') :
    (PropertyCalculator.ofData d).getFullAnalysis =
      (PropertyCalculator.ofData d').getFullAnalysis := by rw [h]

/-- Claim C10, witness: determinism instantiated at the reference
property. -/
theorem C10_engine_deterministic_witness :
    (PropertyCalculator.ofData refProperty).getFullAnalysis =
      (PropertyCalculator.ofData refProperty).getFullAnalysis :=
  C10_engine_deterministic refProperty refProperty rfl

end DealFlow
